import Mathlib

/-!
Shallow embedding of `src/trend_analyzer.py` (class `TrendAnalyzer`) from the
system-optimizer repository: the snapshot data model, the snapshot store
(`save_stats` / `load_recent_stats`), numeric extraction
(`extract_numeric_value`) and the trend analysis (`analyze_trend`).

Modelling conventions:
- Python floats are modelled as `ℚ` (all values handled by the analyzer are
  decimal literals; no rounding behaviour is relevant to the claims).
- A Python dict field that may be missing is an `Option` field; Python
  truthiness of a string is "present and nonempty", of an int "present and
  nonzero", of the `load` dict "at least one of its keys present".
- Instants (`datetime`) are modelled as `ℚ` seconds on a global timeline.
  The filename pattern `stats_%Y%m%d_%H%M%S.json` identifies an instant down
  to whole seconds, so the store key of an instant `t` is `⌊t⌋`; lexicographic
  filename order coincides with key order. The ISO-8601 `timestamp` string of
  a snapshot is modelled by the instant it denotes.
- Human-readable `message` strings (Python f-string formatting) carry no
  information beyond the `type`/`severity` fields next to them and are
  elided from `Warning`/`Anomaly`.
-/

namespace TrendAnalyzer

/-- Disk group of a snapshot: `stats["disk"]`, string-valued fields as
produced by `df -h` parsing in `get_current_stats`. -/
structure Disk where
  size : Option String := none
  used : Option String := none
  available : Option String := none
  usage_percent : Option String := none
  deriving DecidableEq

/-- Memory group of a snapshot: `stats["memory"]`. -/
structure Memory where
  total : Option String := none
  used : Option String := none
  free : Option String := none
  available : Option String := none
  deriving DecidableEq

/-- Load group of a snapshot: `stats["load"]` with keys `1min`, `5min`,
`15min`, each a float when present. -/
structure Load where
  one_min : Option ℚ := none
  five_min : Option ℚ := none
  fifteen_min : Option ℚ := none
  deriving DecidableEq

/-- Docker group of a snapshot: `stats["docker"]` with integer counts. -/
structure Docker where
  total : Option ℤ := none
  running : Option ℤ := none
  deriving DecidableEq

/-- One snapshot as produced by `get_current_stats` and stored by
`save_stats`: the `timestamp` ISO string is modelled by the instant it
denotes (`none` when the key is missing). -/
structure Snapshot where
  timestamp : Option ℚ := none
  disk : Disk := {}
  memory : Memory := {}
  load : Load := {}
  docker : Docker := {}
  deriving DecidableEq

/-- Python truthiness of the `load` dict: a dict is truthy iff nonempty;
under the snapshot schema, iff at least one of its three keys is present. -/
def Load.truthy (l : Load) : Bool :=
  l.one_min.isSome || l.five_min.isSome || l.fifteen_min.isSome

/-- Decimal digits to a natural number, most significant first. -/
def digitsToNat (cs : List Char) : ℕ :=
  cs.foldl (fun a c => 10 * a + (c.toNat - 48)) 0

/-- Split a character list at every `'.'` (the separator is dropped);
character-level equivalent of splitting a string on `"."`. -/
def splitOnDot : List Char → List (List Char)
  | [] => [[]]
  | c :: rest =>
    match splitOnDot rest with
    | [] => [[]]
    | g :: gs => if c = '.' then [] :: g :: gs else (c :: g) :: gs

/-- Unsigned part of Python `float(...)`: digits with at most one decimal
point, at least one digit overall (accepts `"81"`, `"6.2"`, `"1."`, `".5"`;
rejects `""`, `"."`, anything with a non-digit). Exotic accepted forms
(exponents, `inf`, `nan`, underscores) do not occur in the data this program
stores and are not modelled. -/
def parseUnsigned (cs : List Char) : Option ℚ :=
  match splitOnDot cs with
  | [i] =>
      if i ≠ [] ∧ i.all Char.isDigit then some (digitsToNat i) else none
  | [i, f] =>
      if (i ≠ [] ∨ f ≠ []) ∧ i.all Char.isDigit ∧ f.all Char.isDigit then
        some ((digitsToNat i : ℚ) + (digitsToNat f : ℚ) / 10 ^ f.length)
      else none
  | _ => none

/-- Remove surrounding whitespace, character-level. -/
def trimChars (cs : List Char) : List Char :=
  ((cs.dropWhile Char.isWhitespace).reverse.dropWhile Char.isWhitespace).reverse

/-- Python `float(...)` on a string: strips surrounding whitespace, then an
optional sign, then an unsigned decimal number; `none` models `ValueError`. -/
def parseFloat (s : String) : Option ℚ :=
  match trimChars s.data with
  | '-' :: rest => (parseUnsigned rest).map (fun q => -q)
  | '+' :: rest => parseUnsigned rest
  | cs => parseUnsigned cs

/-- Remove every occurrence of one character; what Python
`str.replace(c, '')` does for a single-character pattern. -/
def removeChar (c : Char) (s : String) : String :=
  ⟨s.data.filter (fun x => x ≠ c)⟩

/-- Unit stripping in `extract_numeric_value`:
`value.replace('G', '').replace('M', '').replace('%', '')`. -/
def stripUnits (s : String) : String :=
  removeChar '%' (removeChar 'M' (removeChar 'G' s))

/-- Source `TrendAnalyzer.extract_numeric_value`: strip the unit letters,
parse as float, and on any parse failure return `0.0` (the bare `except`
branch). -/
def extract_numeric_value (value : String) : ℚ :=
  match parseFloat (stripUnits value) with
  | some q => q
  | none => 0

/-- Disk-usage extraction loop of `analyze_trend`: for each snapshot, if
`stat.get("disk", {}).get("usage_percent")` is truthy (present and nonempty
string), append `extract_numeric_value` of it. -/
def diskUsageList (stats_list : List Snapshot) : List ℚ :=
  stats_list.filterMap (fun stat =>
    match stat.disk.usage_percent with
    | some v => if v ≠ "" then some (extract_numeric_value v) else none
    | none => none)

/-- Load extraction loop of `analyze_trend`, 1-minute component: for each
snapshot with a truthy `load` dict, append `stat["load"].get("1min", 0)`. -/
def load1List (stats_list : List Snapshot) : List ℚ :=
  stats_list.filterMap (fun stat =>
    if stat.load.truthy then some (stat.load.one_min.getD 0) else none)

/-- Load extraction loop of `analyze_trend`, 5-minute component:
`stat["load"].get("5min", 0)` for each snapshot with a truthy `load` dict. -/
def load5List (stats_list : List Snapshot) : List ℚ :=
  stats_list.filterMap (fun stat =>
    if stat.load.truthy then some (stat.load.five_min.getD 0) else none)

/-- Docker extraction loop of `analyze_trend`: for each snapshot, if
`stat.get("docker", {}).get("total")` is truthy (present and nonzero),
append it. -/
def containerCounts (stats_list : List Snapshot) : List ℤ :=
  stats_list.filterMap (fun stat =>
    match stat.docker.total with
    | some n => if n ≠ 0 then some n else none
    | none => none)

/-- Python `statistics.mean`: sum divided by length (callers only apply it
to nonempty lists). -/
def mean (xs : List ℚ) : ℚ := xs.sum / xs.length

/-- Python `max` over a list, with a default for the empty list (callers
only apply it to nonempty lists). -/
def listMax {α : Type} [LinearOrder α] (d : α) : List α → α
  | [] => d
  | h :: t => t.foldl max h

/-- One entry of `analysis["warnings"]`: the `type` and `severity` keys
(`message` elided, see module docstring). -/
structure Warning where
  type : String
  severity : String
  deriving DecidableEq

/-- One entry of `analysis["anomalies"]`: the `type` and `severity` keys
(`message` elided). -/
structure Anomaly where
  type : String
  severity : String
  deriving DecidableEq

/-- The `analysis["trends"]["disk"]` dict. -/
structure TrendsDisk where
  current : ℚ
  average : ℚ
  trend : ℚ
  trend_percent : ℚ
  deriving DecidableEq

/-- The `analysis["trends"]["load"]` dict. -/
structure TrendsLoad where
  current_1min : ℚ
  current_5min : ℚ
  average : ℚ
  max : ℚ
  deriving DecidableEq

/-- The `analysis["trends"]["docker"]` dict. -/
structure TrendsDocker where
  current : ℤ
  average : ℚ
  max : ℤ
  deriving DecidableEq

/-- The `analysis["trends"]` dict: each metric key is present iff its
extraction list was nonempty. -/
structure Trends where
  disk : Option TrendsDisk := none
  load : Option TrendsLoad := none
  docker : Option TrendsDocker := none
  deriving DecidableEq

/-- Return value of `analyze_trend`. The source returns a plain dict; on the
`no_data` branch that dict carries only `status` and `message`, and callers
read the remaining keys with `.get`, observing them as absent/falsy — we
model those absent keys by their observed neutral values (`0`, all-`none`
trends, empty lists). -/
structure Analysis where
  status : String
  message : Option String := none
  data_points : ℕ := 0
  trends : Trends := {}
  warnings : List Warning := []
  anomalies : List Anomaly := []
  deriving DecidableEq

/-- Disk block of `analyze_trend` (guarded by `if disk_usage:` in the
source), applied to the extracted `disk_usage` list: the trend dict, the
static threshold warnings (`> 80` high, elif `> 70` medium) and the growth
anomaly over the last 4 samples
(`(disk_usage[-1] - disk_usage[-4]) / 3 > 2`, evaluated only when
`len(disk_usage) > 3`). -/
def diskBlock (disk_usage : List ℚ) :
    Option TrendsDisk × List Warning × List Anomaly :=
  if disk_usage.isEmpty then (none, [], [])
  else
    let disk_avg := mean disk_usage
    let disk_latest := disk_usage.getLastD 0
    let disk_trend :=
      if disk_usage.length > 1 then disk_latest - disk_usage.headD 0 else 0
    let t : TrendsDisk :=
      { current := disk_latest, average := disk_avg, trend := disk_trend,
        trend_percent := if disk_avg > 0 then disk_trend / disk_avg * 100 else 0 }
    let w : List Warning :=
      if disk_latest > 80 then [{ type := "disk", severity := "high" }]
      else if disk_latest > 70 then [{ type := "disk", severity := "medium" }]
      else []
    let a : List Anomaly :=
      if disk_usage.length > 3 then
        let growth_rate :=
          (disk_usage.getLastD 0 - disk_usage.getD (disk_usage.length - 4) 0) / 3
        if growth_rate > 2 then [{ type := "disk_growth", severity := "medium" }]
        else []
      else []
    (some t, w, a)

/-- Load block of `analyze_trend` (guarded by `if load_1min:`), applied to
the extracted 1-minute and 5-minute lists: the trend dict, the high-load
warning (`load_avg > 2.0`) and the spike anomaly
(`load_max > load_avg * 3`). -/
def loadBlock (load_1min load_5min : List ℚ) :
    Option TrendsLoad × List Warning × List Anomaly :=
  if load_1min.isEmpty then (none, [], [])
  else
    let load_avg := mean load_1min
    let load_max := listMax 0 load_1min
    let t : TrendsLoad :=
      { current_1min := load_1min.getLastD 0,
        current_5min := if load_5min.isEmpty then 0 else load_5min.getLastD 0,
        average := load_avg, max := load_max }
    let w : List Warning :=
      if load_avg > 2 then [{ type := "load", severity := "high" }] else []
    let a : List Anomaly :=
      if load_max > load_avg * 3 then
        [{ type := "load_spike", severity := "medium" }]
      else []
    (some t, w, a)

/-- Docker block of `analyze_trend` (guarded by `if container_counts:`):
trend dict only, no warning or anomaly rule. -/
def dockerBlock (container_counts : List ℤ) : Option TrendsDocker :=
  if container_counts.isEmpty then none
  else some
    { current := container_counts.getLastD 0,
      average := mean (container_counts.map (fun n => (n : ℚ))),
      max := listMax 0 container_counts }

/-- Source `TrendAnalyzer.analyze_trend`: the empty-input guard returning
the `no_data` dict, then the disk, load and docker blocks over the per-metric
extraction lists. Warnings and anomalies are appended in source order (disk
first, then load). -/
def analyze_trend (stats_list : List Snapshot) : Analysis :=
  if stats_list.isEmpty then
    { status := "no_data", message := some "No historical data available" }
  else
    let diskPart := diskBlock (diskUsageList stats_list)
    let loadPart := loadBlock (load1List stats_list) (load5List stats_list)
    { status := "ok",
      data_points := stats_list.length,
      trends :=
        { disk := diskPart.1, load := loadPart.1,
          docker := dockerBlock (containerCounts stats_list) },
      warnings := diskPart.2.1 ++ loadPart.2.1,
      anomalies := diskPart.2.2 ++ loadPart.2.2 }

/-! The snapshot store: one JSON file per snapshot under the data directory.
A stored file is modelled as a `Record`: either a snapshot that parses back
(JSON round-trips the dict exactly, and `datetime.fromisoformat` succeeds on
its `timestamp`), or a malformed file on which `json.load` or
`fromisoformat` raises inside `load_recent_stats`'s `try` (a `good` record
whose `timestamp` is `none` is also skipped there: `fromisoformat` then runs
on the file stem `stats_...`, which it rejects). The store is the directory
contents: an association list from the second-granularity filename key to
the record. -/

/-- One stored file's parse outcome. -/
inductive Record where
  | good (s : Snapshot)
  | malformed
  deriving DecidableEq

/-- The data directory: filename key (seconds, `⌊t⌋` for capture instant
`t`) paired with the stored record. -/
abbrev Store : Type := List (ℤ × Record)

/-- Source `TrendAnalyzer.save_stats` run at instant `now`: writes the
snapshot to `stats_<now at second granularity>.json`. `open(..., 'w')`
replaces the contents of an existing file of the same name, otherwise the
file is created. -/
def save_stats (store : Store) (now : ℚ) (stats : Snapshot) : Store :=
  let key : ℤ := ⌊now⌋
  if store.any (fun kr => kr.1 = key) then
    store.map (fun kr => if kr.1 = key then (key, Record.good stats) else kr)
  else
    store ++ [(key, Record.good stats)]

/-- Insertion step for sorting directory entries by filename key. -/
def insertByKey (x : ℤ × Record) : List (ℤ × Record) → List (ℤ × Record)
  | [] => [x]
  | y :: ys => if x.1 ≤ y.1 then x :: y :: ys else y :: insertByKey x ys

/-- The `sorted(self.data_dir.glob("stats_*.json"))` traversal: lexicographic
order on the fixed-width filenames equals order on the second keys. -/
def sortByKey : List (ℤ × Record) → List (ℤ × Record)
  | [] => []
  | x :: xs => insertByKey x (sortByKey xs)

/-- Source `TrendAnalyzer.load_recent_stats` run at instant `now`:
`cutoff = now - timedelta(hours=hours)`; each stored file, in filename
order, is parsed inside a `try` (a malformed record, or a record whose
timestamp cannot be parsed, is skipped by the bare `except`), and the
snapshot is kept iff its timestamp is strictly after the cutoff. -/
def load_recent_stats (store : Store) (now : ℚ) (hours : ℚ) : List Snapshot :=
  let cutoff := now - hours * 3600
  (sortByKey store).filterMap (fun kr =>
    match kr.2 with
    | Record.malformed => none
    | Record.good s =>
      match s.timestamp with
      | some t => if t > cutoff then some s else none
      | none => none)

/-! Concrete inputs used by the worked examples of the spec and by the
witnesses below. -/

/-- Snapshot carrying only a disk `usage_percent` string. -/
def diskSnap (p : String) : Snapshot := { disk := { usage_percent := some p } }

/-- Snapshot carrying only a 1-minute load value. -/
def loadSnap (x : ℚ) : Snapshot := { load := { one_min := some x } }

/-- Snapshot carrying only a docker container total. -/
def dockSnap (n : ℤ) : Snapshot := { docker := { total := some n } }

/-- Snapshot carrying only a timestamp. -/
def snapT (t : ℚ) : Snapshot := { timestamp := some t }

/-- Snapshot whose load group is nonempty but lacks the `1min` key. -/
def load5Only : Snapshot := { load := { five_min := some 1 } }

/-- The spec's worked disk window: `usage_percent` values 60, 65, 70, 76, 81. -/
def diskW5 : List Snapshot :=
  [diskSnap "60%", diskSnap "65%", diskSnap "70%", diskSnap "76%", diskSnap "81%"]

/-- Four-sample disk window ending at 76, inside the medium band (70, 80]. -/
def diskW4 : List Snapshot :=
  [diskSnap "60%", diskSnap "65%", diskSnap "70%", diskSnap "76%"]

/-- The spec's worked load window: 1-minute loads 0.5, 0.4, 0.6, 3.0. -/
def loadW3 : List Snapshot :=
  [loadSnap (1/2), loadSnap (2/5), loadSnap (3/5), loadSnap 3]

/-- The spec's worked load window with the last sample replaced by 4.0. -/
def loadW4 : List Snapshot :=
  [loadSnap (1/2), loadSnap (2/5), loadSnap (3/5), loadSnap 4]

end TrendAnalyzer

/-! Helper lemmas about the store and the analysis, shared by the claim
theorems below. -/

namespace TrendAnalyzer

/-- Insertion into a key-sorted directory listing preserves membership. -/
theorem mem_insertByKey {x y : ℤ × Record} {l : List (ℤ × Record)} :
    y ∈ insertByKey x l ↔ y = x ∨ y ∈ l := by
  induction l with
  | nil => simp [insertByKey]
  | cons a as ih =>
    rw [insertByKey]
    split
    · simp
    · simp only [List.mem_cons, ih]
      tauto

/-- Sorting the directory listing by key preserves membership. -/
theorem mem_sortByKey {y : ℤ × Record} {l : List (ℤ × Record)} :
    y ∈ sortByKey l ↔ y ∈ l := by
  induction l with
  | nil => simp [sortByKey]
  | cons a as ih => rw [sortByKey, mem_insertByKey]; simp [ih]

/-- Characterisation of the result of `load_recent_stats`: a snapshot is
listed iff some stored file holds it as a good record and its timestamp is
strictly inside the window. -/
theorem mem_load_recent_stats {store : Store} {now hours : ℚ} {s : Snapshot} :
    s ∈ load_recent_stats store now hours ↔
      (∃ k, (k, Record.good s) ∈ store) ∧
        ∃ t, s.timestamp = some t ∧ t > now - hours * 3600 := by
  simp only [load_recent_stats, List.mem_filterMap]
  constructor
  · rintro ⟨⟨k, r⟩, hmem, hf⟩
    rw [mem_sortByKey] at hmem
    cases r with
    | malformed => simp at hf
    | good s' =>
      cases hts : s'.timestamp with
      | none => simp [hts] at hf
      | some t =>
        simp only [hts] at hf
        by_cases hc : t > now - hours * 3600
        · rw [if_pos hc] at hf
          obtain rfl : s' = s := by injection hf
          exact ⟨⟨k, hmem⟩, t, hts, hc⟩
        · rw [if_neg hc] at hf
          exact absurd hf (by simp)
  · rintro ⟨⟨k, hk⟩, t, hts, ht⟩
    exact ⟨(k, Record.good s), mem_sortByKey.mpr hk, by simp [hts, ht]⟩

/-- After `save_stats`, the store holds the written snapshot under the
second-granularity key of the write instant. -/
theorem mem_save_stats (store : Store) (ts : ℚ) (s : Snapshot) :
    (⌊ts⌋, Record.good s) ∈ save_stats store ts s := by
  by_cases h : store.any (fun kr => kr.1 = ⌊ts⌋)
  · rw [save_stats, if_pos h, List.mem_map]
    rw [List.any_eq_true] at h
    obtain ⟨kr, hkr, hk⟩ := h
    exact ⟨kr, hkr, by simp [of_decide_eq_true hk]⟩
  · rw [save_stats, if_neg h]
    simp

/-- On a nonempty window `analyze_trend` takes the `ok` branch and is the
assembly of the three metric blocks. -/
theorem analyze_trend_of_ne_nil {l : List Snapshot} (h : l ≠ []) :
    analyze_trend l =
      { status := "ok", data_points := l.length,
        trends :=
          { disk := (diskBlock (diskUsageList l)).1,
            load := (loadBlock (load1List l) (load5List l)).1,
            docker := dockerBlock (containerCounts l) },
        warnings :=
          (diskBlock (diskUsageList l)).2.1 ++ (loadBlock (load1List l) (load5List l)).2.1,
        anomalies :=
          (diskBlock (diskUsageList l)).2.2 ++ (loadBlock (load1List l) (load5List l)).2.2 } := by
  simp [analyze_trend, h]

/-- The docker trend entry is the docker block of the extracted counts, on
every window (both branches of `analyze_trend` agree on it). -/
theorem analyze_trend_trends_docker (l : List Snapshot) :
    (analyze_trend l).trends.docker = dockerBlock (containerCounts l) := by
  cases l with
  | nil => rfl
  | cons a as => simp [analyze_trend]

/-- Disk block on at least two values: the trend dict with its delta. -/
theorem diskBlock_fst_of_one_lt {xs : List ℚ} (h : 1 < xs.length) :
    (diskBlock xs).1 = some
      { current := xs.getLastD 0, average := mean xs,
        trend := xs.getLastD 0 - xs.headD 0,
        trend_percent :=
          if mean xs > 0 then (xs.getLastD 0 - xs.headD 0) / mean xs * 100 else 0 } := by
  have hne : xs ≠ [] := by intro h'; subst h'; simp at h
  simp [diskBlock, hne, h]

/-- Disk block on exactly one value: a trend dict with zero delta. -/
theorem diskBlock_fst_of_len_one {xs : List ℚ} (h : xs.length = 1) :
    ∃ d, (diskBlock xs).1 = some d ∧ d.trend = 0 := by
  have hne : xs ≠ [] := by intro h'; subst h'; simp at h
  have h1 : ¬ (1 < xs.length) := by omega
  refine ⟨{ current := xs.getLastD 0, average := mean xs, trend := 0,
            trend_percent := 0 }, ?_, rfl⟩
  simp [diskBlock, hne, h1]

/-- Every warning the disk block emits has type `disk`. -/
theorem diskBlock_warnings_type {xs : List ℚ} {w : Warning}
    (h : w ∈ (diskBlock xs).2.1) : w.type = "disk" := by
  unfold diskBlock at h
  split at h
  · simp at h
  · simp only at h
    split at h
    · simp at h; subst h; rfl
    · split at h
      · simp at h; subst h; rfl
      · simp at h

/-- Every anomaly the disk block emits has type `disk_growth`. -/
theorem diskBlock_anomalies_type {xs : List ℚ} {a : Anomaly}
    (h : a ∈ (diskBlock xs).2.2) : a.type = "disk_growth" := by
  unfold diskBlock at h
  split at h
  · simp at h
  · simp only at h
    split at h
    · split at h
      · simp at h; subst h; rfl
      · simp at h
    · simp at h

/-- Load block warnings on a nonempty 1-minute list. -/
theorem loadBlock_warnings {xs ys : List ℚ} (h : xs ≠ []) :
    (loadBlock xs ys).2.1 =
      if mean xs > 2 then [{ type := "load", severity := "high" }] else [] := by
  simp [loadBlock, h]

/-- Load block anomalies on a nonempty 1-minute list. -/
theorem loadBlock_anomalies {xs ys : List ℚ} (h : xs ≠ []) :
    (loadBlock xs ys).2.2 =
      if listMax 0 xs > mean xs * 3 then
        [{ type := "load_spike", severity := "medium" }]
      else [] := by
  simp [loadBlock, h]

/-- Disk extraction distributes over window concatenation. -/
theorem diskUsageList_append (l1 l2 : List Snapshot) :
    diskUsageList (l1 ++ l2) = diskUsageList l1 ++ diskUsageList l2 := by
  simp [diskUsageList]

/-- Load extraction distributes over window concatenation. -/
theorem load1List_append (l1 l2 : List Snapshot) :
    load1List (l1 ++ l2) = load1List l1 ++ load1List l2 := by
  simp [load1List]

/-- Docker extraction distributes over window concatenation. -/
theorem containerCounts_append (l1 l2 : List Snapshot) :
    containerCounts (l1 ++ l2) = containerCounts l1 ++ containerCounts l2 := by
  simp [containerCounts]

/-- A snapshot with docker total zero or absent is skipped by the docker
extraction (Python truthiness of the int `0` is false). -/
theorem containerCounts_cons_zero {s : Snapshot}
    (h : s.docker.total = some 0 ∨ s.docker.total = none) (l : List Snapshot) :
    containerCounts (s :: l) = containerCounts l := by
  rcases h with h | h <;> simp [containerCounts, h]

/-- A window whose docker totals are all zero or absent extracts no counts. -/
theorem containerCounts_eq_nil {l : List Snapshot}
    (h : ∀ s ∈ l, s.docker.total = some 0 ∨ s.docker.total = none) :
    containerCounts l = [] := by
  induction l with
  | nil => rfl
  | cons a as ih =>
    rw [containerCounts_cons_zero (h a (by simp))]
    exact ih (fun s hs => h s (by simp [hs]))

/-- A snapshot with absent or empty `usage_percent` is excluded from the
disk extraction. -/
theorem diskUsageList_cons_absent {s : Snapshot}
    (h : s.disk.usage_percent = none ∨ s.disk.usage_percent = some "")
    (l : List Snapshot) :
    diskUsageList (s :: l) = diskUsageList l := by
  rcases h with h | h <;> simp [diskUsageList, h]

/-- The bare `except` of `extract_numeric_value` turns a parse failure into
the value `0.0`. -/
theorem extract_numeric_value_of_unparsable {v : String}
    (hp : parseFloat (stripUnits v) = none) : extract_numeric_value v = 0 := by
  simp [extract_numeric_value, hp]

/-- A snapshot with a nonempty unparsable `usage_percent` contributes the
coerced value `0.0` to the disk extraction. -/
theorem diskUsageList_cons_unparsable {s : Snapshot} {v : String}
    (h : s.disk.usage_percent = some v) (hv : v ≠ "")
    (hp : parseFloat (stripUnits v) = none) (l : List Snapshot) :
    diskUsageList (s :: l) = 0 :: diskUsageList l := by
  simp [diskUsageList, h, hv, extract_numeric_value_of_unparsable hp]

/-- A snapshot whose load dict is falsy (empty) is excluded from the load
extraction. -/
theorem load1List_cons_falsy {s : Snapshot} (h : s.load.truthy = false)
    (l : List Snapshot) : load1List (s :: l) = load1List l := by
  simp [load1List, h]

/-- A snapshot with a truthy load dict lacking `1min` contributes the
`.get("1min", 0)` default `0` to the load extraction. -/
theorem load1List_cons_missing {s : Snapshot} (h : s.load.truthy = true)
    (h1 : s.load.one_min = none) (l : List Snapshot) :
    load1List (s :: l) = 0 :: load1List l := by
  simp [load1List, h, h1]

/-- The 1-minute extraction of the spec's worked load window. -/
theorem load1List_loadW3 : load1List loadW3 = [1/2, 2/5, 3/5, 3] := by
  simp [loadW3, load1List, loadSnap, Load.truthy]

/-- The 1-minute extraction of the variant window ending in 4.0. -/
theorem load1List_loadW4 : load1List loadW4 = [1/2, 2/5, 3/5, 4] := by
  simp [loadW4, load1List, loadSnap, Load.truthy]

end TrendAnalyzer

/-! Claim theorems. -/

namespace TrendAnalyzer

/-- C1: the claim demands that two snapshots appended within the same second
are both retained (or the duplicate rejected with a reported error). The
code violates this: evaluated at two `save_stats` calls at instants 100.2
and 100.7 (same second-granularity store key 100), the second write
replaces the first file and a subsequent `load_recent_stats` over a window
containing both returns exactly the one later snapshot. -/
theorem c1_same_second_append_overwrites :
    snapT 100 ≠ snapT 101 ∧
    save_stats (save_stats [] (501/5) (snapT 100)) (1007/10) (snapT 101) =
      [(100, Record.good (snapT 101))] ∧
    load_recent_stats
      (save_stats (save_stats [] (501/5) (snapT 100)) (1007/10) (snapT 101)) 200 24 =
      [snapT 101] := by
  have hf1 : (⌊(501/5 : ℚ)⌋ : ℤ) = 100 := by rw [Int.floor_eq_iff]; norm_num
  have hf2 : (⌊(1007/10 : ℚ)⌋ : ℤ) = 100 := by rw [Int.floor_eq_iff]; norm_num
  have e1 : save_stats [] (501/5 : ℚ) (snapT 100) = [(100, Record.good (snapT 100))] := by
    simp [save_stats, hf1]
  have e2 : save_stats [(100, Record.good (snapT 100))] (1007/10 : ℚ) (snapT 101) =
      [(100, Record.good (snapT 101))] := by
    simp [save_stats, hf2]
  have hc : (101 : ℚ) > 200 - 24 * 3600 := by norm_num
  refine ⟨by decide, by rw [e1, e2], ?_⟩
  rw [e1, e2]
  simp [load_recent_stats, sortByKey, insertByKey, snapT, hc]

/-- C2 counterexample: the claim says an unparsable metric string is
excluded and never contributes 0 to an average, and that a load group
lacking `1min` never adds a zero. At the window `["50%", "abc"]` the
unparsable `"abc"` is coerced to 0 and drags the disk average down to 25
(exclusion would give 50), and a snapshot whose load dict has only `5min`
adds a literal 0 to the 1-minute statistics. -/
theorem c2_zero_coercion_counterexample :
    parseFloat (stripUnits "abc") = none ∧
    (analyze_trend [diskSnap "50%", diskSnap "abc"]).trends.disk =
      some { current := 0, average := 25, trend := -50, trend_percent := -200 } ∧
    load5Only.load.one_min = none ∧
    (analyze_trend [load5Only]).trends.load =
      some { current_1min := 0, current_5min := 1, average := 0, max := 0 } := by
  have hd : diskUsageList [diskSnap "50%", diskSnap "abc"] = [50, 0] := by decide
  have hl : load1List [load5Only] = [0] := by decide
  have hl5 : load5List [load5Only] = [1] := by decide
  have ed := analyze_trend_of_ne_nil (l := [diskSnap "50%", diskSnap "abc"]) (by decide)
  have el := analyze_trend_of_ne_nil (l := [load5Only]) (by decide)
  rw [hd] at ed
  rw [hl, hl5] at el
  refine ⟨by decide, ?_, rfl, ?_⟩
  · rw [ed]
    norm_num [diskBlock, mean]
  · rw [el]
    norm_num [loadBlock, mean, listMax]

/-- C2 amended: a disk `usage_percent` that is absent or empty, or a fully
empty load group, is excluded from the statistics; but a nonempty unparsable
`usage_percent` string is coerced to 0.0 and included, and a snapshot with a
nonempty load group lacking `1min` contributes 0 to the 1-minute load
statistics. -/
theorem c2_amended_absent_exclusion :
    (∀ (l1 l2 : List Snapshot) (s : Snapshot),
      s.disk.usage_percent = none ∨ s.disk.usage_percent = some "" →
      diskUsageList (l1 ++ s :: l2) = diskUsageList (l1 ++ l2)) ∧
    (∀ (l1 l2 : List Snapshot) (s : Snapshot) (v : String),
      s.disk.usage_percent = some v → v ≠ "" → parseFloat (stripUnits v) = none →
      diskUsageList (l1 ++ s :: l2) = diskUsageList l1 ++ 0 :: diskUsageList l2) ∧
    (∀ (l1 l2 : List Snapshot) (s : Snapshot),
      s.load.truthy = false → load1List (l1 ++ s :: l2) = load1List (l1 ++ l2)) ∧
    (∀ (l1 l2 : List Snapshot) (s : Snapshot),
      s.load.truthy = true → s.load.one_min = none →
      load1List (l1 ++ s :: l2) = load1List l1 ++ 0 :: load1List l2) := by
  refine ⟨fun l1 l2 s h => ?_, fun l1 l2 s v h hv hp => ?_,
    fun l1 l2 s h => ?_, fun l1 l2 s h h1 => ?_⟩
  · rw [diskUsageList_append, diskUsageList_append, diskUsageList_cons_absent h]
  · rw [diskUsageList_append, diskUsageList_cons_unparsable h hv hp]
  · rw [load1List_append, load1List_append, load1List_cons_falsy h]
  · rw [load1List_append, load1List_cons_missing h h1]

/-- Witness for the C2 amended theorem at concrete snapshots. -/
theorem c2_amended_absent_exclusion_witness :
    diskUsageList ([diskSnap "50%"] ++ ({} : Snapshot) :: []) =
      diskUsageList ([diskSnap "50%"] ++ []) ∧
    diskUsageList ([] ++ diskSnap "abc" :: []) = diskUsageList [] ++ 0 :: diskUsageList [] ∧
    load1List ([] ++ ({} : Snapshot) :: []) = load1List ([] ++ []) ∧
    load1List ([] ++ load5Only :: []) = load1List [] ++ 0 :: load1List [] :=
  ⟨c2_amended_absent_exclusion.1 [diskSnap "50%"] [] {} (Or.inl rfl),
   c2_amended_absent_exclusion.2.1 [] [] (diskSnap "abc") "abc" rfl (by decide) (by decide),
   c2_amended_absent_exclusion.2.2.1 [] [] {} rfl,
   c2_amended_absent_exclusion.2.2.2 [] [] load5Only rfl rfl⟩

/-- C3: the disk `usage_percent` window [60, 65, 70, 76, 81] yields a disk
trend with current 81, a `disk`/`high` warning (current > 80), and a
`disk_growth`/`medium` anomaly (growth (81-65)/3 > 2); the four-sample
window ending at 76 (inside the band 70 < current ≤ 80) instead yields a
`disk`/`medium` warning. -/
theorem c3_disk_example_classification :
    (analyze_trend diskW5).trends.disk =
      some { current := 81, average := 352/5, trend := 21, trend_percent := 2625/88 } ∧
    (analyze_trend diskW5).warnings = [{ type := "disk", severity := "high" }] ∧
    (analyze_trend diskW5).anomalies = [{ type := "disk_growth", severity := "medium" }] ∧
    (analyze_trend diskW4).warnings = [{ type := "disk", severity := "medium" }] := by
  have h5 : diskUsageList diskW5 = [60, 65, 70, 76, 81] := by decide
  have h4 : diskUsageList diskW4 = [60, 65, 70, 76] := by decide
  have hl5 : load1List diskW5 = [] := by decide
  have hl5b : load5List diskW5 = [] := by decide
  have hl4 : load1List diskW4 = [] := by decide
  have hl4b : load5List diskW4 = [] := by decide
  have e5 := analyze_trend_of_ne_nil (l := diskW5) (by decide)
  have e4 := analyze_trend_of_ne_nil (l := diskW4) (by decide)
  rw [h5, hl5, hl5b] at e5
  rw [h4, hl4, hl4b] at e4
  rw [e5, e4]
  norm_num [diskBlock, loadBlock, mean, listMax]

/-- C4 counterexample: the claim says a window with one present value is
marked `insufficient_data`. At the one-snapshot window the full analysis
value shows delta (trend) 0 as claimed, but carries no such marking
anywhere: its status field stays `ok`. -/
theorem c4_no_marker_counterexample :
    analyze_trend [diskSnap "50%"] =
      { status := "ok", data_points := 1,
        trends := { disk := some { current := 50, average := 50, trend := 0, trend_percent := 0 } },
        warnings := [], anomalies := [] } ∧
    (analyze_trend [diskSnap "50%"]).status ≠ "insufficient_data" := by
  have hd : diskUsageList [diskSnap "50%"] = [50] := by decide
  have hl : load1List [diskSnap "50%"] = [] := by decide
  have hl5 : load5List [diskSnap "50%"] = [] := by decide
  have hc : containerCounts [diskSnap "50%"] = [] := by decide
  have e := analyze_trend_of_ne_nil (l := [diskSnap "50%"]) (by decide)
  rw [hd, hl, hl5, hc] at e
  constructor
  · rw [e]
    norm_num [diskBlock, loadBlock, dockerBlock, mean]
  · rw [e]
    decide

/-- C4 amended: for every window with 0 or 1 present disk values the disk
summary is omitted (0 values) or has delta (trend) 0 (1 value), so the
delta part of the claim holds; but the output is never marked
`insufficient_data` — no such marker exists in the analysis. -/
theorem c4_amended_delta_zero_unmarked (stats_list : List Snapshot)
    (h : (diskUsageList stats_list).length ≤ 1) :
    ((diskUsageList stats_list).length = 0 → (analyze_trend stats_list).trends.disk = none) ∧
    ((diskUsageList stats_list).length = 1 →
      ∃ d, (analyze_trend stats_list).trends.disk = some d ∧ d.trend = 0) ∧
    (analyze_trend stats_list).status ≠ "insufficient_data" := by
  cases stats_list with
  | nil => exact ⟨fun _ => rfl, fun h1 => absurd h1 (by decide), by decide⟩
  | cons a as =>
    rw [analyze_trend_of_ne_nil (by simp)]
    refine ⟨fun h0 => ?_, fun h1 => ?_, ?_⟩
    · have : diskUsageList (a :: as) = [] := List.length_eq_zero.mp h0
      simp [this, diskBlock]
    · simpa using diskBlock_fst_of_len_one h1
    · show ("ok" : String) ≠ "insufficient_data"
      decide

/-- Witness for the C4 amended theorem at a one-snapshot window. -/
theorem c4_amended_delta_zero_unmarked_witness :
    (((diskUsageList [diskSnap "50%"]).length = 0 →
        (analyze_trend [diskSnap "50%"]).trends.disk = none) ∧
      ((diskUsageList [diskSnap "50%"]).length = 1 →
        ∃ d, (analyze_trend [diskSnap "50%"]).trends.disk = some d ∧ d.trend = 0) ∧
      (analyze_trend [diskSnap "50%"]).status ≠ "insufficient_data") :=
  c4_amended_delta_zero_unmarked [diskSnap "50%"] (by decide)

/-- C5: for every window with at least 2 present disk values, the disk
summary has delta (trend) equal to last present value minus first present
value, and trend_percent equal to trend / average * 100 when the average is
positive and 0 otherwise. -/
theorem c5_delta_and_percent (stats_list : List Snapshot)
    (h : 2 ≤ (diskUsageList stats_list).length) :
    ∃ d, (analyze_trend stats_list).trends.disk = some d ∧
      d.average = mean (diskUsageList stats_list) ∧
      d.trend = (diskUsageList stats_list).getLastD 0 - (diskUsageList stats_list).headD 0 ∧
      d.trend_percent = if d.average > 0 then d.trend / d.average * 100 else 0 := by
  have hne : stats_list ≠ [] := by
    intro h'; subst h'; exact absurd h (by decide)
  rw [analyze_trend_of_ne_nil hne]
  refine ⟨{ current := (diskUsageList stats_list).getLastD 0,
            average := mean (diskUsageList stats_list),
            trend := (diskUsageList stats_list).getLastD 0 -
              (diskUsageList stats_list).headD 0,
            trend_percent := if mean (diskUsageList stats_list) > 0 then
              ((diskUsageList stats_list).getLastD 0 -
                (diskUsageList stats_list).headD 0) /
                mean (diskUsageList stats_list) * 100 else 0 }, ?_, rfl, rfl, rfl⟩
  simpa using diskBlock_fst_of_one_lt (by omega)

/-- Witness for C5 at a two-snapshot window. -/
theorem c5_delta_and_percent_witness :
    ∃ d, (analyze_trend [diskSnap "50%", diskSnap "60%"]).trends.disk = some d ∧
      d.average = mean (diskUsageList [diskSnap "50%", diskSnap "60%"]) ∧
      d.trend = (diskUsageList [diskSnap "50%", diskSnap "60%"]).getLastD 0 -
        (diskUsageList [diskSnap "50%", diskSnap "60%"]).headD 0 ∧
      d.trend_percent = if d.average > 0 then d.trend / d.average * 100 else 0 :=
  c5_delta_and_percent [diskSnap "50%", diskSnap "60%"] (by decide)

end TrendAnalyzer

namespace TrendAnalyzer

/-- C6 counterexample: the claim asserts that the load window
[0.5, 0.4, 0.6, 4.0] yields a load spike anomaly. It does not: replacing
the last sample changes the average to 1.375, so the threshold is
3 × 1.375 = 4.125 and max = 4.0 does not exceed it; no anomaly is
emitted. -/
theorem c6_last_sample_four_counterexample :
    (analyze_trend loadW4).anomalies = [] ∧
    (analyze_trend loadW4).trends.load =
      some { current_1min := 4, current_5min := 0, average := 11/8, max := 4 } := by
  have hd : diskUsageList loadW4 = [] := by decide
  have hne : load1List loadW4 ≠ [] := by rw [load1List_loadW4]; simp
  have h5 : load5List loadW4 = [0, 0, 0, 0] := by
    simp [loadW4, load5List, loadSnap, Load.truthy]
  have e := analyze_trend_of_ne_nil (l := loadW4) (by decide)
  rw [hd, load1List_loadW4, h5] at e
  constructor
  · rw [e]
    show (diskBlock []).2.2 ++ (loadBlock [1/2, 2/5, 3/5, 4] [0, 0, 0, 0]).2.2 = []
    rw [loadBlock_anomalies (by simp)]
    rw [if_neg (by norm_num [listMax, mean, max_def])]
    rfl
  · rw [e]
    norm_num [loadBlock, mean, listMax, max_def]

/-- C6 amended: a `load_spike`/`medium` anomaly is emitted exactly when
max(load_1min) > 3 × average(load_1min), and a `load`/`high` warning exactly
when average(load_1min) > 2; the window [0.5, 0.4, 0.6, 3.0] yields no spike
anomaly, and (amended) so does the window with last sample 4.0, because the
average moves to 1.375 and the threshold to 4.125. -/
theorem c6_amended_load_spike_policy :
    (∀ l : List Snapshot, load1List l ≠ [] →
      (({ type := "load_spike", severity := "medium" } : Anomaly) ∈
          (analyze_trend l).anomalies ↔
        listMax 0 (load1List l) > 3 * mean (load1List l))) ∧
    (∀ l : List Snapshot, load1List l ≠ [] →
      (({ type := "load", severity := "high" } : Warning) ∈ (analyze_trend l).warnings ↔
        mean (load1List l) > 2)) ∧
    (analyze_trend loadW3).anomalies = [] ∧
    (analyze_trend loadW4).anomalies = [] := by
  refine ⟨fun l hne => ?_, fun l hne => ?_, ?_, ?_⟩
  · have hl : l ≠ [] := by intro h; subst h; exact hne rfl
    rw [analyze_trend_of_ne_nil hl]
    simp only [List.mem_append]
    rw [loadBlock_anomalies hne, mul_comm 3 (mean (load1List l))]
    constructor
    · rintro (h | h)
      · exact absurd (diskBlock_anomalies_type h) (by decide)
      · by_cases hc : listMax 0 (load1List l) > mean (load1List l) * 3
        · exact hc
        · rw [if_neg hc] at h
          exact absurd h (List.not_mem_nil _)
    · intro hc
      right
      rw [if_pos hc]
      simp
  · have hl : l ≠ [] := by intro h; subst h; exact hne rfl
    rw [analyze_trend_of_ne_nil hl]
    simp only [List.mem_append]
    rw [loadBlock_warnings hne]
    constructor
    · rintro (h | h)
      · exact absurd (diskBlock_warnings_type h) (by decide)
      · by_cases hc : mean (load1List l) > 2
        · exact hc
        · rw [if_neg hc] at h
          exact absurd h (List.not_mem_nil _)
    · intro hc
      right
      rw [if_pos hc]
      simp
  · have hd : diskUsageList loadW3 = [] := by decide
    have hne : load1List loadW3 ≠ [] := by rw [load1List_loadW3]; simp
    rw [analyze_trend_of_ne_nil (by decide), hd]
    rw [loadBlock_anomalies hne, load1List_loadW3]
    rw [if_neg (by norm_num [listMax, mean, max_def])]
    rfl
  · have hd : diskUsageList loadW4 = [] := by decide
    have hne : load1List loadW4 ≠ [] := by rw [load1List_loadW4]; simp
    rw [analyze_trend_of_ne_nil (by decide), hd]
    rw [loadBlock_anomalies hne, load1List_loadW4]
    rw [if_neg (by norm_num [listMax, mean, max_def])]
    rfl

/-- Witness for the C6 amended theorem: the spike rule instantiated at the
spec's worked load window. -/
theorem c6_amended_load_spike_policy_witness :
    ({ type := "load_spike", severity := "medium" } : Anomaly) ∈
        (analyze_trend loadW3).anomalies ↔
      listMax 0 (load1List loadW3) > 3 * mean (load1List loadW3) :=
  c6_amended_load_spike_policy.1 loadW3 (by rw [load1List_loadW3]; simp)

/-- C7: the empty window yields status `no_data` with empty warnings,
anomalies and trends — no crash and no zero-filled summaries. -/
theorem c7_empty_window_no_data :
    (analyze_trend []).status = "no_data" ∧ (analyze_trend []).warnings = [] ∧
    (analyze_trend []).anomalies = [] ∧
    (analyze_trend []).trends = { disk := none, load := none, docker := none } :=
  ⟨rfl, rfl, rfl, rfl⟩

/-- C8 counterexample: the claim says the count of skipped malformed records
is observable in the result of `list`. It is not: a store with one malformed
record and a store with none produce identical results — the result is only
the list of parsed snapshots, with no skip count anywhere. -/
theorem c8_skip_count_unobservable :
    load_recent_stats [(0, Record.malformed), (1, Record.good (snapT 10))] 20 1 =
      load_recent_stats [(1, Record.good (snapT 10))] 20 1 ∧
    load_recent_stats [(0, Record.malformed), (1, Record.good (snapT 10))] 20 1 =
      [snapT 10] := by
  have hc : (20 : ℚ) - 3600 < 10 := by norm_num
  constructor <;> simp [load_recent_stats, sortByKey, insertByKey, snapT, hc]

/-- C8 amended: a malformed stored record is skipped silently — the result
of `load_recent_stats` consists exactly of the parseable records whose
timestamp lies inside the window, so a malformed record never aborts the
listing, but no skip count is recorded in the result. -/
theorem c8_amended_silent_skip (store : Store) (now hours : ℚ) (s : Snapshot) :
    s ∈ load_recent_stats store now hours ↔
      (∃ k, (k, Record.good s) ∈ store) ∧
        ∃ t, s.timestamp = some t ∧ t > now - hours * 3600 :=
  mem_load_recent_stats

/-- Witness for the C8 amended theorem at a concrete store holding one
malformed and one good record. -/
theorem c8_amended_silent_skip_witness :
    snapT 10 ∈ load_recent_stats [(0, Record.malformed), (1, Record.good (snapT 10))] 20 1 :=
  (c8_amended_silent_skip _ 20 1 (snapT 10)).mpr ⟨⟨1, by simp⟩, 10, rfl, by norm_num⟩

/-- C9: a snapshot written by `save_stats` and then listed by
`load_recent_stats` over a window containing its timestamp is returned
unchanged — the very same record, all fields and absence markers equal. -/
theorem c9_append_list_roundtrip (store : Store) (ts now hours : ℚ) (s : Snapshot)
    (t : ℚ) (h1 : s.timestamp = some t) (h2 : t > now - hours * 3600) :
    s ∈ load_recent_stats (save_stats store ts s) now hours :=
  mem_load_recent_stats.mpr ⟨⟨⌊ts⌋, mem_save_stats store ts s⟩, t, h1, h2⟩

/-- Witness for C9 at a concrete snapshot and window. -/
theorem c9_append_list_roundtrip_witness :
    snapT 10 ∈ load_recent_stats (save_stats [] 100 (snapT 10)) 20 1 :=
  c9_append_list_roundtrip [] 100 20 1 (snapT 10) 10 rfl (by norm_num)

/-- C10: a snapshot whose docker total is 0 (or absent) contributes nothing
to the docker trend statistics, and a window whose docker totals are all 0
or absent produces no docker trend entry at all — indistinguishable from a
window with no docker data. -/
theorem c10_docker_zero_invisible (l1 l2 : List Snapshot) (s : Snapshot)
    (h : s.docker.total = some 0 ∨ s.docker.total = none) :
    (analyze_trend (l1 ++ s :: l2)).trends.docker =
      (analyze_trend (l1 ++ l2)).trends.docker ∧
    ((∀ s' ∈ l1 ++ s :: l2, s'.docker.total = some 0 ∨ s'.docker.total = none) →
      (analyze_trend (l1 ++ s :: l2)).trends.docker = none) := by
  constructor
  · rw [analyze_trend_trends_docker, analyze_trend_trends_docker]
    rw [containerCounts_append, containerCounts_append, containerCounts_cons_zero h]
  · intro hall
    rw [analyze_trend_trends_docker, containerCounts_eq_nil hall]
    rfl

/-- Witness for C10: dropping a zero-total snapshot from a concrete window
leaves the docker trend unchanged. -/
theorem c10_docker_zero_invisible_witness :
    (analyze_trend ([dockSnap 2] ++ dockSnap 0 :: [])).trends.docker =
      (analyze_trend ([dockSnap 2] ++ [])).trends.docker :=
  (c10_docker_zero_invisible [dockSnap 2] [] (dockSnap 0) (Or.inl rfl)).1

end TrendAnalyzer
